import Mathlib

set_option maxRecDepth 100000

/-!
Verification of the druid WASM example gallery build script
(druid/examples/wasm/build.rs).

The script links the examples directory into the crate, scans it for
example source files, and generates three kinds of artifacts: a module
list (examples.in), one HTML page per qualifying example (html/<name>.html),
and an index page (index.html).

We shallowly embed the script: the directory scan becomes a fold over the
list of directory-entry file names (in discovery order), the filesystem
becomes explicit state (buffers, a set of performed writes, and the
existence of the html output directory), and every fallible operation
takes its outcome from an explicit environment so that the panic paths of
the script are visible in the model.
-/

/-! ## Rust path semantics

The script calls Path.extension, Path.file_stem and Path.with_extension
on directory entry names.  We model a directory entry by its file name
(a String) and reproduce those std functions: the extension is the part
of the name after the last dot, unless the part before that dot is empty
(names beginning with their only dot have no extension); the stem is the
complement. -/

/-- Split a list of characters at its last dot: returns the part before
and the part after the last occurrence of the dot character, or none if
no dot occurs. -/
def splitLastDot : List Char → Option (List Char × List Char)
  | [] => none
  | c :: cs =>
    match splitLastDot cs with
    | some (b, a) => some (c :: b, a)
    | none => if c = '.' then some ([], cs) else none

/-- Rust Path.extension on a file name: the portion after the last dot,
none when there is no dot or when the name begins with its only dot. -/
def fileExtension (name : String) : Option String :=
  match splitLastDot name.toList with
  | none => none
  | some ([], _) => none
  | some (_ :: _, a) => some (String.mk a)

/-- Rust Path.file_stem on a file name: the portion before the last dot
(the whole name when there is no extension). -/
def fileStem (name : String) : String :=
  match splitLastDot name.toList with
  | none => name
  | some ([], _) => name
  | some (b, _) => String.mk b

/-- Rust Path.with_extension "html" on a single-component path:
replace the extension of the component (if any) by "html". -/
def withExtensionHtml (component : String) : String :=
  fileStem component ++ ".html"

/-! ## The generator constants and templates, transcribed from build.rs -/

/-- Examples known to not work with WASM (the EXCEPTIONS constant). -/
def EXCEPTIONS : List String := ["svg", "ext_event", "blocking_function"]

/-- The initial contents of the examples.in buffer (raw string literal at
the top of main). -/
def examplesInHeader : String :=
  "\n// This file is automatically generated and must not be committed.\n\n/// This is a module collecting all valid examples in the parent examples directory.\nmod examples \x7b\n"

/-- The initial contents of the index.html buffer. -/
def indexHtmlHeader : String :=
  "\n<!DOCTYPE html>\n<html lang=\"en\">\n    <head>\n        <meta charset=\"utf-8\">\n        <title>Druid WASM examples - index</title>\n    </head>\n    <body>\n        <h1>Druid WASM examples</h1>\n        <ul>\n"

/-- The module-declaration line pushed for each qualifying example. -/
def moduleLine (stem : String) : String :=
  "    pub mod " ++ stem ++ ";\n"

/-- The list item pushed onto the index buffer for each qualifying example. -/
def indexEntry (stem : String) : String :=
  "<li><a href=\"./html/" ++ stem ++ ".html\">" ++ stem ++ "</a></li>"

/-- The entry-function name used inside the generated script: the example
name, except that "switch" is remapped to "switch_demo" because it would
collide with the JavaScript switch statement. -/
def jsEntryFnName (stem : String) : String :=
  if stem == "switch" then "switch_demo" else stem

/-- The per-example HTML document: the format template of build.rs with
the given entry-function name substituted for every occurrence of the
name placeholder. -/
def exampleHtml (name : String) : String :=
  "\n<!DOCTYPE html>\n<html lang=\"en\">\n    <head>\n        <meta charset=\"utf-8\">\n        <title>Druid WASM examples - " ++ name ++
  "</title>\n        <style>\n            html, body, canvas \x7b\n                margin: 0px;\n                padding: 0px;\n                width: 100%;\n                height: 100%;\n                overflow: hidden;\n            \x7d\n        </style>\n    </head>\n    <body>\n        <noscript>This page contains webassembly and javascript content, please enable javascript in your browser.</noscript>\n        <canvas id=\"canvas\"></canvas>\n        <script type=\"module\">\n            import init, \x7b " ++ name ++
  " \x7d from \x27../pkg/druid_wasm_examples.js\x27;\n\n            async function run() \x7b\n                await init();\n                " ++ name ++
  "();\n            \x7d\n\n            run();\n        </script>\n    </body>\n</html>"

/-! ## The generator as a fold over directory entries -/

/-- The environment of one run: the crate directory (from the environment
variable CARGO_MANIFEST_DIR) and the outcomes of the fallible filesystem
operations: whether fs.create_dir on the html directory would fail, and
which write targets inside the html directory fs.write would fail on. -/
structure Env where
  crateDir : String
  createDirFails : Bool
  writeFails : String → Bool

/-- The environment of an undisturbed run: no filesystem operation fails. -/
def env0 (c : String) : Env :=
  { crateDir := c, createDirFails := false, writeFails := fun _ => false }

/-- The state accumulated while iterating over the directory entries:
the two text buffers, whether the html output directory currently exists,
how many times it was created, the fs.write calls performed inside the
html directory (target file name and contents, in order), and the pending
panic message if the run has aborted. -/
structure GenState where
  examplesIn : String
  indexHtml : String
  htmlDirExists : Bool
  dirCreates : Nat
  htmlWrites : List (String × String)
  panicMsg : Option String
deriving DecidableEq

/-- The state at the top of the loop in main: both buffers hold their
headers, nothing has been written, and the html directory may or may not
already exist (it survives from previous runs). -/
def initState (htmlDirEx : Bool) : GenState :=
  { examplesIn := examplesInHeader
    indexHtml := indexHtmlHeader
    htmlDirExists := htmlDirEx
    dirCreates := 0
    htmlWrites := []
    panicMsg := none }

/-- The panic message of the unwrap_or_else around fs.create_dir: it names
the offending path crate_dir/html (Debug-formatted, hence the quotes). -/
def dirPanicMsg (env : Env) : String :=
  "Failed to create output html directory: \"" ++ env.crateDir ++ "/html\""

/-- The fs.write call at the bottom of the loop body: the target is
html_dir.join(example).with_extension("html"); on failure the script
panics with a message naming the example. -/
def stepWrite (env : Env) (st : GenState) (exName html : String) : GenState :=
  if env.writeFails (withExtensionHtml exName) then
    { st with panicMsg := some ("Failed to create " ++ exName ++ ".html") }
  else
    { st with htmlWrites := st.htmlWrites ++ [(withExtensionHtml exName, html)] }

/-- The html-directory block of the loop body: create the directory only
when it does not exist (a failed creation panics naming the path), then
perform the write. -/
def stepMkDirAndWrite (env : Env) (st : GenState) (exName html : String) : GenState :=
  if st.htmlDirExists then
    stepWrite env st exName html
  else if env.createDirFails then
    { st with panicMsg := some (dirPanicMsg env) }
  else
    stepWrite env
      { st with htmlDirExists := true, dirCreates := st.dirCreates + 1 }
      exName html

/-- One iteration of the loop in main over a directory entry: skip entries
without the rs extension, skip stems on the exception list, otherwise push
the module line, push the index entry, render the document with the
(possibly remapped) entry-function name, and create/write under html/.
Once a panic is pending the run has aborted, so the state is unchanged. -/
def step (env : Env) (st : GenState) (name : String) : GenState :=
  if st.panicMsg.isSome then st
  else
    match fileExtension name with
    | none => st
    | some r =>
      if r == "rs" then
        let exName := fileStem name
        if EXCEPTIONS.contains exName then st
        else
          let st1 := { st with examplesIn := st.examplesIn ++ moduleLine exName }
          let st2 := { st1 with indexHtml := st1.indexHtml ++ indexEntry exName }
          stepMkDirAndWrite env st2 exName (exampleHtml (jsEntryFnName exName))
      else st

/-- The three artifacts of a successful run: the contents written to
src/examples.in and index.html, the writes performed under html/, and the
number of times the html directory was created. -/
structure FinalOut where
  examplesIn : String
  indexHtml : String
  htmlWrites : List (String × String)
  dirCreates : Nat
deriving DecidableEq

/-- The generation phase of main: fold the loop body over the directory
entries in discovery order, then close both buffers ("}" and the list/page
footer) and write them out; a pending panic aborts the run with its
message. -/
def generate (env : Env) (htmlDirEx : Bool) (entries : List String) :
    Except String FinalOut :=
  let st := entries.foldl (step env) (initState htmlDirEx)
  match st.panicMsg with
  | some m => Except.error m
  | none =>
    Except.ok
      { examplesIn := st.examplesIn ++ "\x7d"
        indexHtml := st.indexHtml ++ "</ul></body></html>"
        htmlWrites := st.htmlWrites
        dirCreates := st.dirCreates }

/-! ## Specification-side views of the scan -/

/-- A directory entry qualifies when its extension is rs and its stem is
not on the exception list. -/
def qualifies (name : String) : Bool :=
  match fileExtension name with
  | none => false
  | some r => r == "rs" && !(EXCEPTIONS.contains (fileStem name))

/-- The stems of the qualifying entries, in discovery order. -/
def qualifyingStems (entries : List String) : List String :=
  (entries.filter qualifies).map fileStem

/-- Concatenation of the images of a string-producing function over a
list, used to state the shape of the generated buffers. -/
def strConcatMap (f : String → String) : List String → String
  | [] => ""
  | s :: rest => f s ++ strConcatMap f rest

/-- Whether the first character list is a prefix of the second. -/
def isPrefixCh : List Char → List Char → Bool
  | [], _ => true
  | _ :: _, [] => false
  | a :: as, b :: bs => a == b && isPrefixCh as bs

/-- Whether the first character list occurs contiguously in the second. -/
def containsSubCh (p : List Char) : List Char → Bool
  | [] => isPrefixCh p []
  | c :: t => isPrefixCh p (c :: t) || containsSubCh p t

/-- Whether the first string occurs as a contiguous substring of the
second; used to state which identifiers a generated document mentions. -/
def containsSub (p s : String) : Bool :=
  containsSubCh p.toList s.toList

/-- The net effect of one loop iteration on a qualifying entry in an
undisturbed run. -/
def afterStep (st : GenState) (name : String) : GenState :=
  { st with
    examplesIn := st.examplesIn ++ moduleLine (fileStem name)
    indexHtml := st.indexHtml ++ indexEntry (fileStem name)
    htmlDirExists := true
    dirCreates := st.dirCreates + (if st.htmlDirExists then 0 else 1)
    htmlWrites := st.htmlWrites ++
      [(withExtensionHtml (fileStem name), exampleHtml (jsEntryFnName (fileStem name)))] }

/-! ## The directory linker (link_dir_unix and link_dir_windows)

The linker functions act only through the platform filesystem, so we
model each of them as a function of the outcomes of the filesystem calls
they make, distinguishing the error kinds the code inspects. -/

/-- The io error kinds the script distinguishes; every kind it never
names is collapsed into otherError. -/
inductive IOErrorKind where
  | alreadyExists
  | notFound
  | otherError
deriving DecidableEq

/-- Display text of an io error, spliced into the panic messages. -/
def errText : IOErrorKind → String
  | IOErrorKind.alreadyExists => "entity already exists"
  | IOErrorKind.notFound => "entity not found"
  | IOErrorKind.otherError => "other os error"

/-- Outcome of a linker invocation: normal return or a panic with its
message. -/
inductive LinkOutcome where
  | ok
  | panicked (msg : String)
deriving DecidableEq

/-- link_dir_unix, as a function of the outcome of the symlink call
(none means the call succeeded): success and AlreadyExists return
silently, every other error panics with a descriptive message. -/
def linkDirUnix (symlinkErr : Option IOErrorKind) : LinkOutcome :=
  match symlinkErr with
  | none => LinkOutcome.ok
  | some e =>
    if e = IOErrorKind.alreadyExists then LinkOutcome.ok
    else LinkOutcome.panicked ("Failed to create symlink: " ++ errText e)

/-- Outcome model of the os symlink call itself: creating dst succeeds
when dst does not yet exist (and dst then exists), and fails with
AlreadyExists when it does.  Returns the error outcome and whether dst
exists afterwards. -/
def symlinkAttempt (dstExists : Bool) : Option IOErrorKind × Bool :=
  if dstExists then (some IOErrorKind.alreadyExists, true) else (none, true)

/-- One invocation of link_dir_unix against a destination that may or may
not already exist: the outcome and the destination state afterwards. -/
def linkDirUnixRun (dstExists : Bool) : LinkOutcome × Bool :=
  ((linkDirUnix (symlinkAttempt dstExists).1), (symlinkAttempt dstExists).2)

/-- The filesystem outcomes link_dir_windows can observe: the result of
fs.remove_dir on dst (none means it succeeded), whether the native
symlink_dir call succeeds, whether spawning the cmd mklink process
succeeds, and whether dst exists after the mklink fallback. -/
structure WinFs where
  removeErr : Option IOErrorKind
  symlinkOk : Bool
  spawnOk : Bool
  dstExistsAfter : Bool

/-- The tail of link_dir_windows after the removal step: try the native
directory symlink, fall back to cmd /C mklink /J (whose process spawn
failure panics), then verify that dst exists and panic if it does not. -/
def linkDirWindowsAfterRemove (fs : WinFs) : LinkOutcome :=
  if fs.symlinkOk then LinkOutcome.ok
  else if !fs.spawnOk then LinkOutcome.panicked "failed to execute process"
  else if fs.dstExistsAfter then LinkOutcome.ok
  else LinkOutcome.panicked "Failed to create a link"

/-- link_dir_windows: first remove any previous entry at dst with
fs.remove_dir, tolerating NotFound and panicking on any other removal
error, then link as in linkDirWindowsAfterRemove. -/
def linkDirWindows (fs : WinFs) : LinkOutcome :=
  match fs.removeErr with
  | none => linkDirWindowsAfterRemove fs
  | some e =>
    if e = IOErrorKind.notFound then linkDirWindowsAfterRemove fs
    else LinkOutcome.panicked ("Failed to remove directory: " ++ errText e)

/-! ## Structural lemmas about the scan -/

/-- A non-qualifying entry (wrong or missing extension, or a stem on the
exception list) leaves the loop state untouched. -/
theorem step_skip (env : Env) (st : GenState) (name : String)
    (h : qualifies name = false) : step env st name = st := by
  unfold step
  by_cases hp : st.panicMsg.isSome
  · simp [hp]
  · simp only [hp, Bool.false_eq_true, if_false]
    unfold qualifies at h
    cases hfe : fileExtension name with
    | none => simp
    | some r =>
      rw [hfe] at h
      simp only []
      by_cases hr : r == "rs"
      · simp only [hr, Bool.true_and] at h
        simp only [Bool.not_eq_false'] at h
        have h' : fileStem name ∈ EXCEPTIONS := by simpa using h
        simp [hr, h']
      · simp only [Bool.not_eq_true] at hr
        simp [hr]

/-- A pending panic makes the loop body a no-op (the run has aborted). -/
theorem step_panicked (env : Env) (st : GenState) (name : String)
    (h : st.panicMsg.isSome = true) : step env st name = st := by
  unfold step
  simp [h]

/-- On a qualifying entry with no pending panic, the loop body pushes the
module line and the index entry and then performs the directory-and-write
block on the rendered document. -/
theorem step_qualifying (env : Env) (st : GenState) (name : String)
    (h : qualifies name = true) (hp : st.panicMsg = none) :
    step env st name =
      stepMkDirAndWrite env
        { st with
          examplesIn := st.examplesIn ++ moduleLine (fileStem name)
          indexHtml := st.indexHtml ++ indexEntry (fileStem name) }
        (fileStem name) (exampleHtml (jsEntryFnName (fileStem name))) := by
  unfold step
  unfold qualifies at h
  cases hfe : fileExtension name with
  | none => rw [hfe] at h; exact absurd h (by simp)
  | some r =>
    rw [hfe] at h
    simp only [Bool.and_eq_true, Bool.not_eq_true'] at h
    have h' : fileStem name ∉ EXCEPTIONS := by simpa using h.2
    simp [hp, h.1, h']

/-- On a qualifying entry, an undisturbed run performs exactly the
afterStep update. -/
theorem step_qualifying_env0 (c : String) (st : GenState) (name : String)
    (h : qualifies name = true) (hp : st.panicMsg = none) :
    step (env0 c) st name = afterStep st name := by
  rw [step_qualifying (env0 c) st name h hp]
  unfold stepMkDirAndWrite stepWrite afterStep env0
  by_cases hd : st.htmlDirExists
  · simp [hd]
  · simp [hd]

/-- Filtering a cons by qualifies, unfolded on the qualifying side. -/
theorem qualifyingStems_cons_pos (name : String) (rest : List String)
    (h : qualifies name = true) :
    qualifyingStems (name :: rest) = fileStem name :: qualifyingStems rest := by
  simp [qualifyingStems, List.filter_cons, h]

/-- Filtering a cons by qualifies, unfolded on the skipped side. -/
theorem qualifyingStems_cons_neg (name : String) (rest : List String)
    (h : qualifies name = false) :
    qualifyingStems (name :: rest) = qualifyingStems rest := by
  simp [qualifyingStems, List.filter_cons, h]

/-- Master lemma for an undisturbed run: folding the loop body over the
directory entries appends, to each buffer and to the write list, exactly
the contributions of the qualifying stems in discovery order; the html
directory is created exactly once if it was absent and at least one entry
qualifies, and never otherwise; no panic arises. -/
theorem foldl_step_env0 (c : String) :
    ∀ (es : List String) (st : GenState), st.panicMsg = none →
      es.foldl (step (env0 c)) st =
        { st with
          examplesIn := st.examplesIn ++ strConcatMap moduleLine (qualifyingStems es)
          indexHtml := st.indexHtml ++ strConcatMap indexEntry (qualifyingStems es)
          htmlDirExists := st.htmlDirExists || !(qualifyingStems es).isEmpty
          dirCreates := st.dirCreates +
            (if st.htmlDirExists then 0 else if (qualifyingStems es).isEmpty then 0 else 1)
          htmlWrites := st.htmlWrites ++ (qualifyingStems es).map
            (fun s => (withExtensionHtml s, exampleHtml (jsEntryFnName s))) } := by
  intro es
  induction es with
  | nil =>
    intro st hp
    cases st
    simp [qualifyingStems, strConcatMap]
  | cons name rest ih =>
    intro st hp
    simp only [List.foldl_cons]
    by_cases hq : qualifies name = true
    · rw [step_qualifying_env0 c st name hq hp]
      rw [ih (afterStep st name) (by simp [afterStep, hp])]
      rw [qualifyingStems_cons_pos name rest hq]
      cases st
      simp only [afterStep, strConcatMap]
      simp [String.append_assoc, List.append_assoc, Nat.add_assoc]
    · have hq' : qualifies name = false := by
        revert hq; cases qualifies name <;> simp
      rw [step_skip (env0 c) st name hq']
      rw [ih st hp]
      rw [qualifyingStems_cons_neg name rest hq']

/-- An undisturbed run of the generation phase succeeds and produces
exactly the artifacts determined by the qualifying stems in discovery
order: the module list wrapped between its header and the closing brace,
the index page wrapped between its header and the list/page footer, one
write under html/ per qualifying stem (target obtained by replacing the
stem extension, if any, with html; contents rendered at the possibly
remapped entry name), and one directory creation exactly when the html
directory was absent and some entry qualifies. -/
theorem generate_env0 (c : String) (b : Bool) (es : List String) :
    generate (env0 c) b es = Except.ok
      { examplesIn :=
          examplesInHeader ++ strConcatMap moduleLine (qualifyingStems es) ++ "\x7d"
        indexHtml :=
          indexHtmlHeader ++ strConcatMap indexEntry (qualifyingStems es) ++
            "</ul></body></html>"
        htmlWrites := (qualifyingStems es).map
          (fun s => (withExtensionHtml s, exampleHtml (jsEntryFnName s)))
        dirCreates :=
          if b then 0 else if (qualifyingStems es).isEmpty then 0 else 1 } := by
  unfold generate
  rw [foldl_step_env0 c es (initState b) rfl]
  simp [initState]

/-- A stem on the exception list makes its entry non-qualifying
regardless of extension. -/
theorem qualifies_eq_false_of_exception (name : String)
    (h : fileStem name ∈ EXCEPTIONS) : qualifies name = false := by
  unfold qualifies
  cases hfe : fileExtension name with
  | none => rfl
  | some r => simp [h]

/-! ## The claims -/

/-- Claim C5: for every base name in the Exception Set, even when a
matching entry exists in the input directory, the generator emits no
module line, no html file and no index entry for it, silently: a run over
a directory containing such an entry is identical, in every observable
output and error, to the run over the directory without it.  This holds
for every environment, so the skip can never surface as an error. -/
theorem c5_exception_skip (env : Env) (b : Bool) (name : String)
    (es1 es2 : List String) (h : fileStem name ∈ EXCEPTIONS) :
    generate env b (es1 ++ name :: es2) = generate env b (es1 ++ es2) := by
  unfold generate
  have hfold : (es1 ++ name :: es2).foldl (step env) (initState b) =
      (es1 ++ es2).foldl (step env) (initState b) := by
    rw [List.foldl_append, List.foldl_append, List.foldl_cons,
      step_skip env _ name (qualifies_eq_false_of_exception name h)]
  rw [hfold]

/-- Witness for C5 at a concrete input: svg.rs is on the exception list
and its presence changes nothing. -/
theorem c5_witness :
    fileStem "svg.rs" ∈ EXCEPTIONS ∧
    generate (env0 ".") false ["foo.rs", "svg.rs"] =
      generate (env0 ".") false ["foo.rs"] :=
  ⟨by decide, c5_exception_skip (env0 ".") false "svg.rs" ["foo.rs"] [] (by decide)⟩

/-- Claim C7: on unix, link_dir succeeds silently when the symlink call
succeeds or fails with AlreadyExists; invoking it twice against the same
pair therefore succeeds both times (the second attempt hits
AlreadyExists); any other symlink failure panics with a descriptive
message. -/
theorem c7_link_idempotent :
    linkDirUnix none = LinkOutcome.ok ∧
    linkDirUnix (some IOErrorKind.alreadyExists) = LinkOutcome.ok ∧
    (∀ e : IOErrorKind, e ≠ IOErrorKind.alreadyExists →
      linkDirUnix (some e) =
        LinkOutcome.panicked ("Failed to create symlink: " ++ errText e)) ∧
    (∀ firstDstExists : Bool,
      (linkDirUnixRun firstDstExists).1 = LinkOutcome.ok ∧
      (linkDirUnixRun (linkDirUnixRun firstDstExists).2).1 = LinkOutcome.ok) := by
  refine ⟨rfl, rfl, ?_, ?_⟩
  · intro e he
    cases e with
    | alreadyExists => exact absurd rfl he
    | notFound => rfl
    | otherError => rfl
  · intro b
    cases b <;> exact ⟨rfl, rfl⟩

/-- Witness for C7 at a concrete error kind: a NotFound failure of the
symlink call panics. -/
theorem c7_witness :
    IOErrorKind.notFound ≠ IOErrorKind.alreadyExists ∧
    linkDirUnix (some IOErrorKind.notFound) =
      LinkOutcome.panicked ("Failed to create symlink: " ++ errText IOErrorKind.notFound) :=
  ⟨by decide, c7_link_idempotent.2.2.1 IOErrorKind.notFound (by decide)⟩

/-- Claim C8: on windows, link_dir first removes an existing destination,
tolerating NotFound and treating any other removal error as fatal; then
it attempts a native directory symlink, succeeding without any fallback
when that works; only on failure does it invoke cmd /C mklink /J (a spawn
failure of which is itself fatal), after which it verifies that the
destination exists and panics if it does not. -/
theorem c8_windows_linker (fs : WinFs) :
    (∀ e : IOErrorKind, fs.removeErr = some e → e ≠ IOErrorKind.notFound →
      linkDirWindows fs =
        LinkOutcome.panicked ("Failed to remove directory: " ++ errText e)) ∧
    (fs.removeErr = some IOErrorKind.notFound →
      linkDirWindows fs = linkDirWindowsAfterRemove fs) ∧
    (fs.removeErr = none →
      linkDirWindows fs = linkDirWindowsAfterRemove fs) ∧
    (fs.symlinkOk = true → linkDirWindowsAfterRemove fs = LinkOutcome.ok) ∧
    (fs.symlinkOk = false → fs.spawnOk = false →
      linkDirWindowsAfterRemove fs = LinkOutcome.panicked "failed to execute process") ∧
    (fs.symlinkOk = false → fs.spawnOk = true → fs.dstExistsAfter = true →
      linkDirWindowsAfterRemove fs = LinkOutcome.ok) ∧
    (fs.symlinkOk = false → fs.spawnOk = true → fs.dstExistsAfter = false →
      linkDirWindowsAfterRemove fs = LinkOutcome.panicked "Failed to create a link") := by
  refine ⟨?_, ?_, ?_, ?_, ?_, ?_, ?_⟩
  · intro e he hne
    unfold linkDirWindows
    rw [he]
    simp [hne]
  · intro he
    unfold linkDirWindows
    rw [he]
    simp
  · intro he
    unfold linkDirWindows
    rw [he]
  · intro hs
    unfold linkDirWindowsAfterRemove
    simp [hs]
  · intro hs hp
    unfold linkDirWindowsAfterRemove
    simp [hs, hp]
  · intro hs hp hd
    unfold linkDirWindowsAfterRemove
    simp [hs, hp, hd]
  · intro hs hp hd
    unfold linkDirWindowsAfterRemove
    simp [hs, hp, hd]

/-- Witness for C8 at a concrete filesystem: a PermissionDenied-like
removal error is fatal. -/
theorem c8_witness :
    linkDirWindows
      { removeErr := some IOErrorKind.otherError, symlinkOk := true,
        spawnOk := true, dstExistsAfter := true } =
      LinkOutcome.panicked ("Failed to remove directory: " ++ errText IOErrorKind.otherError) :=
  (c8_windows_linker _).1 IOErrorKind.otherError rfl (by decide)

/-- Claim C1 (amended): for every run, the module-declaration lines and
the index list entries are exactly those of the qualifying stems (entries
with extension rs whose stem is not on the exception list), in discovery
order, and entries with no extension or another extension contribute
nothing; the per-example HTML writes are in one-to-one correspondence
with the qualifying stems, but their target is the stem with any inner
extension replaced by html (Path.with_extension semantics), which equals
stem.html only when the stem has no inner extension of its own. -/
theorem c1_artifacts_are_qualifying_stems (c : String) (b : Bool) (es : List String) :
    ∃ out : FinalOut,
      generate (env0 c) b es = Except.ok out ∧
      out.examplesIn =
        examplesInHeader ++ strConcatMap moduleLine (qualifyingStems es) ++ "\x7d" ∧
      out.indexHtml =
        indexHtmlHeader ++ strConcatMap indexEntry (qualifyingStems es) ++
          "</ul></body></html>" ∧
      out.htmlWrites.map Prod.fst = (qualifyingStems es).map withExtensionHtml := by
  refine ⟨_, generate_env0 c b es, rfl, rfl, ?_⟩
  simp

/-- Counterexample to claim C1 as stated: for the directory entry a.b.rs
the qualifying stem is a.b, but the HTML file written is a.html, not
a.b.html, so the set of generated HTML files is not the image of the
qualifying stems. -/
theorem c1_counterexample :
    qualifyingStems ["a.b.rs"] = ["a.b"] ∧
    (["a.b.rs"].foldl (step (env0 ".")) (initState false)).htmlWrites.map Prod.fst =
      ["a.html"] ∧
    (["a.b.rs"].foldl (step (env0 ".")) (initState false)).htmlWrites.map Prod.fst ≠
      (qualifyingStems ["a.b.rs"]).map (fun s => s ++ ".html") := by
  refine ⟨by decide, by decide, by decide⟩

/-- Claim C3: running the generation phase twice in succession on an
unchanged entry list produces byte-identical examples.in, index.html and
per-example HTML contents both times, whatever the state of the html
output directory before each run (in particular the state the first run
leaves behind): the buffers are rebuilt from scratch and depend on no
prior output. -/
theorem c3_idempotent_regeneration (c : String) (b1 b2 : Bool) (es : List String) :
    ∃ o1 o2 : FinalOut,
      generate (env0 c) b1 es = Except.ok o1 ∧
      generate (env0 c) b2 es = Except.ok o2 ∧
      o1.examplesIn = o2.examplesIn ∧
      o1.indexHtml = o2.indexHtml ∧
      o1.htmlWrites = o2.htmlWrites :=
  ⟨_, _, generate_env0 c b1 es, generate_env0 c b2 es, rfl, rfl, rfl⟩

/-- Claim C4 (amended): the index list items and the per-example HTML
writes are in positional one-to-one correspondence, both indexed by the
qualifying stems in discovery order: the item for stem s links to
./html/s.html while the write targets the stem with any inner extension
replaced by html (equal to s.html whenever s has no inner extension). -/
theorem c4_index_write_correspondence (c : String) (b : Bool) (es : List String) :
    ∃ out : FinalOut,
      generate (env0 c) b es = Except.ok out ∧
      out.indexHtml =
        indexHtmlHeader ++ strConcatMap indexEntry (qualifyingStems es) ++
          "</ul></body></html>" ∧
      (∀ s : String, indexEntry s =
        "<li><a href=\"./html/" ++ s ++ ".html\">" ++ s ++ "</a></li>") ∧
      out.htmlWrites.map Prod.fst =
        (qualifyingStems es).map (fun s => fileStem s ++ ".html") ∧
      out.htmlWrites.length = (qualifyingStems es).length := by
  refine ⟨_, generate_env0 c b es, rfl, fun s => rfl, ?_, ?_⟩
  · simp [withExtensionHtml]
  · simp

/-- Counterexample to claim C4 as stated: for the entry x.y.rs the index
item links to ./html/x.y.html but the file written is x.html, so the
qualifying stem x.y does not produce a file html/x.y.html. -/
theorem c4_counterexample :
    qualifyingStems ["x.y.rs"] = ["x.y"] ∧
    containsSub "./html/x.y.html"
      (["x.y.rs"].foldl (step (env0 ".")) (initState false)).indexHtml = true ∧
    (["x.y.rs"].foldl (step (env0 ".")) (initState false)).htmlWrites.map Prod.fst =
      ["x.html"] ∧
    (["x.y.rs"].foldl (step (env0 ".")) (initState false)).htmlWrites.map Prod.fst ≠
      ["x.y.html"] := by
  refine ⟨by decide, by decide, by decide, by decide⟩

/-- Claim C6: the module-declaration lines appear in discovery order, one
line per qualifying stem of the form pub mod stem; the accumulated lines
sit between a header whose last line opens the block mod examples and the
closing brace appended after all entries are processed. -/
theorem c6_module_lines_in_discovery_order (c : String) (b : Bool) (es : List String) :
    ∃ out : FinalOut,
      generate (env0 c) b es = Except.ok out ∧
      out.examplesIn =
        examplesInHeader ++ strConcatMap moduleLine (qualifyingStems es) ++ "\x7d" ∧
      (∃ preamble : String, examplesInHeader = preamble ++ "mod examples \x7b\n") ∧
      (∀ s : String, moduleLine s = "    pub mod " ++ s ++ ";\n") := by
  refine ⟨_, generate_env0 c b es, rfl, ?_, fun s => rfl⟩
  exact ⟨"\n// This file is automatically generated and must not be committed.\n\n/// This is a module collecting all valid examples in the parent examples directory.\n", by decide⟩

/-- Claim C10: when no entry qualifies (empty directory, no rs files, or
only exception-listed stems), the run still succeeds, writing an
examples.in holding just the empty module block and an index.html with an
empty list, performing no HTML write and never creating the html output
directory. -/
theorem c10_no_qualifying_examples (c : String) (b : Bool) (es : List String)
    (h : qualifyingStems es = []) :
    generate (env0 c) b es = Except.ok
      { examplesIn := examplesInHeader ++ "\x7d"
        indexHtml := indexHtmlHeader ++ "</ul></body></html>"
        htmlWrites := []
        dirCreates := 0 } := by
  rw [generate_env0 c b es, h]
  simp [strConcatMap]

/-- Witness for C10 at a concrete input: a directory holding only a
non-source file and an exception-listed source file. -/
theorem c10_witness :
    qualifyingStems ["readme.md", "svg.rs"] = [] ∧
    generate (env0 ".") false ["readme.md", "svg.rs"] = Except.ok
      { examplesIn := examplesInHeader ++ "\x7d"
        indexHtml := indexHtmlHeader ++ "</ul></body></html>"
        htmlWrites := []
        dirCreates := 0 } :=
  ⟨by decide, c10_no_qualifying_examples "." false ["readme.md", "svg.rs"] (by decide)⟩

/-- Claim C2: over a directory containing switch.rs, the module line uses
the original stem (pub mod switch;), the HTML file is still written to
html/switch.html, and the document rendered for it is the template
instantiated at switch_demo: its script imports and invokes switch_demo
(both occur as substrings) and never mentions the raw import or call of
switch (neither occurs as a substring); for every other stem the
entry-function name equals the stem. -/
theorem c2_switch_remap :
    (∃ out : FinalOut,
      generate (env0 ".") false ["switch.rs"] = Except.ok out ∧
      out.examplesIn = examplesInHeader ++ moduleLine "switch" ++ "\x7d" ∧
      out.indexHtml = indexHtmlHeader ++ indexEntry "switch" ++ "</ul></body></html>" ∧
      out.htmlWrites = [("switch.html", exampleHtml "switch_demo")]) ∧
    containsSub "import init, \x7b switch_demo \x7d" (exampleHtml "switch_demo") = true ∧
    containsSub "switch_demo();" (exampleHtml "switch_demo") = true ∧
    containsSub "import init, \x7b switch \x7d" (exampleHtml "switch_demo") = false ∧
    containsSub "switch();" (exampleHtml "switch_demo") = false ∧
    (∀ s : String, s ≠ "switch" → jsEntryFnName s = s) := by
  refine ⟨⟨_, generate_env0 "." false ["switch.rs"], by decide, by decide, by decide⟩,
    by decide, by decide, by decide, by decide, ?_⟩
  intro s hs
  unfold jsEntryFnName
  simp [hs]

/-- Witness for C2 at a concrete stem other than switch: the entry name
of foo is foo. -/
theorem c2_witness :
    "foo" ≠ "switch" ∧ jsEntryFnName "foo" = "foo" :=
  ⟨by decide, c2_switch_remap.2.2.2.2.2 "foo" (by decide)⟩

/-- Claim C9 (amended): during HTML emission of a qualifying entry, the
html directory is created only when it does not already exist
(pre-existence is tolerated, with no creation performed), a creation
failure is fatal with the offending path crate_dir/html named in the
message; the rendered document is then written unconditionally (one write
appended regardless of what was written before) to the stem with any
inner extension replaced by html, and a write failure is fatal with the
example's name in the message. -/
theorem c9_html_dir_and_write (env : Env) (st : GenState) (name : String)
    (hq : qualifies name = true) (hp : st.panicMsg = none) :
    (st.htmlDirExists = true →
      (step env st name).dirCreates = st.dirCreates) ∧
    (st.htmlDirExists = false → env.createDirFails = false →
      (step env st name).dirCreates = st.dirCreates + 1 ∧
      (step env st name).htmlDirExists = true) ∧
    (st.htmlDirExists = false → env.createDirFails = true →
      (step env st name).panicMsg =
        some ("Failed to create output html directory: \"" ++ env.crateDir ++ "/html\"")) ∧
    (st.htmlDirExists = true →
      env.writeFails (withExtensionHtml (fileStem name)) = false →
      (step env st name).htmlWrites = st.htmlWrites ++
        [(withExtensionHtml (fileStem name),
          exampleHtml (jsEntryFnName (fileStem name)))]) ∧
    (st.htmlDirExists = true →
      env.writeFails (withExtensionHtml (fileStem name)) = true →
      (step env st name).panicMsg =
        some ("Failed to create " ++ fileStem name ++ ".html")) := by
  rw [step_qualifying env st name hq hp]
  unfold stepMkDirAndWrite stepWrite dirPanicMsg
  refine ⟨?_, ?_, ?_, ?_, ?_⟩
  · intro hd
    by_cases hw : env.writeFails (withExtensionHtml (fileStem name)) <;> simp [hd, hw]
  · intro hd hc
    by_cases hw : env.writeFails (withExtensionHtml (fileStem name)) <;> simp [hd, hc, hw]
  · intro hd hc
    simp [hd, hc]
  · intro hd hw
    simp [hd, hw]
  · intro hd hw
    simp [hd, hw]

/-- Witness for C9 at a concrete state: with the directory absent and a
failing create_dir, the run panics naming ./html. -/
theorem c9_witness :
    qualifies "foo.rs" = true ∧
    (initState false).panicMsg = none ∧
    (step { crateDir := ".", createDirFails := true, writeFails := fun _ => false }
        (initState false) "foo.rs").panicMsg =
      some ("Failed to create output html directory: \"" ++ "." ++ "/html\"") :=
  ⟨by decide, rfl,
    (c9_html_dir_and_write _ (initState false) "foo.rs" (by decide) rfl).2.2.1 rfl rfl⟩

/-- Counterexample to claim C9 as stated: for the qualifying entry p.q.rs
the document is written to p.html, not to p.q.html as the claim's
html/<stem>.html target asserts. -/
theorem c9_counterexample :
    qualifyingStems ["p.q.rs"] = ["p.q"] ∧
    (["p.q.rs"].foldl (step (env0 ".")) (initState false)).htmlWrites.map Prod.fst =
      ["p.html"] ∧
    (["p.q.rs"].foldl (step (env0 ".")) (initState false)).htmlWrites.map Prod.fst ≠
      ["p.q.html"] := by
  refine ⟨by decide, by decide, by decide⟩
